import Mathlib

/-!
Verification of the feathers scroll-container widget
(`crates/bevy_feathers/src/controls/scroll.rs`).

The source operates on `f32`; here every scalar is modelled by an exact
rational (`ℚ`).  All properties verified below concern order comparisons,
clamping and branch structure, for which exact arithmetic is the faithful
abstraction; the concrete scenario values (percentages, pixel sizes) are
exactly representable.  `f32::clamp(lo, hi)` requires `lo ≤ hi` (it panics
otherwise); it is modelled totally as `min (max v lo) hi`, which agrees
with it whenever `lo ≤ hi` — every call site verified below is exercised
only with `lo ≤ hi`.
-/

namespace FeathersScroll

/-- Source constant `SCROLLBAR_MIN_THUMB_SIZE = 10.0` (scroll.rs line 18):
minimum thumb size as a percentage of the track. -/
def SCROLLBAR_MIN_THUMB_SIZE : ℚ := 10

/-- Source constant `LINE_HEIGHT = 21.0` (scroll.rs line 19): factor that
converts line-unit scroll deltas to pixels. -/
def LINE_HEIGHT : ℚ := 21

/-- The two-component vector `bevy_math::Vec2`, with exact-rational
components. -/
structure Vec2 where
  x : ℚ
  y : ℚ
deriving DecidableEq

/-- The `bevy_ui::OverflowAxis` enum. -/
inductive OverflowAxis where
  | visible
  | clip
  | hidden
  | scroll
deriving DecidableEq, BEq

/-- The `bevy_ui::Overflow` struct: one overflow mode per axis. -/
structure Overflow where
  x : OverflowAxis
  y : OverflowAxis
deriving DecidableEq

/-- The part of `bevy_ui::Node` the scroll observer reads: the overflow
configuration. -/
structure Node where
  overflow : Overflow

/-- The part of `bevy_ui::ComputedNode` the scroll code reads: content
size, node size (the viewport) and the inverse scale factor. -/
structure ComputedNode where
  content_size : Vec2
  size : Vec2
  inverse_scale_factor : ℚ

/-- The `bevy_ui::ScrollPosition` component: the per-axis scroll offset. -/
@[ext]
structure ScrollPosition where
  x : ℚ
  y : ℚ
deriving DecidableEq

/-- Rust `f32::clamp(lo, hi)`, modelled totally (see the file header:
Rust panics when `lo > hi`; the two agree whenever `lo ≤ hi`). -/
def clampQ (v lo hi : ℚ) : ℚ := min (max v lo) hi

/-- Scroll.rs line 395: `let mut delta = -Vec2::new(event.x, event.y);` —
the working delta is the negated raw event delta. -/
def raw_delta (event : Vec2) : Vec2 := ⟨-event.x, -event.y⟩

/-- Scroll.rs lines 397-401: if both components of the working delta are
under 10 in magnitude the delta is treated as line units and multiplied
by `LINE_HEIGHT`. -/
def scaled_delta (event : Vec2) : Vec2 :=
  if |(raw_delta event).x| < 10 ∧ |(raw_delta event).y| < 10 then
    ⟨(raw_delta event).x * LINE_HEIGHT, (raw_delta event).y * LINE_HEIGHT⟩
  else
    raw_delta event

/-- Scroll.rs lines 403-411: when only horizontal scrolling is enabled and
the (scaled) delta is purely vertical, the vertical delta is moved onto
the x component. -/
def redirected_delta (node : Node) (d : Vec2) : Vec2 :=
  if node.overflow.x = OverflowAxis.scroll ∧ node.overflow.y ≠ OverflowAxis.scroll
      ∧ d.x = 0 ∧ d.y ≠ 0 then
    ⟨d.y, 0⟩
  else
    d

/-- The working delta of the observer after negation (line 395), line-unit
scaling (lines 397-401) and redirection (lines 403-411). -/
def eff_delta (node : Node) (event : Vec2) : Vec2 :=
  redirected_delta node (scaled_delta event)

/-- Scroll.rs line 413: `max_offset = (content_size - size) * inverse_scale_factor`,
componentwise. -/
def max_offset (computed : ComputedNode) : Vec2 :=
  ⟨(computed.content_size.x - computed.size.x) * computed.inverse_scale_factor,
   (computed.content_size.y - computed.size.y) * computed.inverse_scale_factor⟩

/-- One axis of the offset update, scroll.rs lines 416-426 (and the
identical vertical block, lines 429-439).  The source computes
`at_limit = if delta > 0 { pos >= max } else { pos <= 0 }` and skips the
clamped addition when at the limit; here the `at_limit` test is inlined
into the two sign branches. -/
def step_axis (o : OverflowAxis) (pos d m : ℚ) : ℚ :=
  if o = OverflowAxis.scroll ∧ d ≠ 0 then
    if 0 < d then
      if pos ≥ m then pos else clampQ (pos + d) 0 m
    else
      if pos ≤ 0 then pos else clampQ (pos + d) 0 m
  else
    pos

/-- The observer `scroll_observer` (scroll.rs lines 386-440) as a function
from the event and the queried components to the updated scroll position.
The source updates x then y; the y update reads only the y offset, so the
simultaneous pair is the same function. -/
def scroll_observer (event : Vec2) (node : Node) (computed : ComputedNode)
    (pos : ScrollPosition) : ScrollPosition :=
  ⟨step_axis node.overflow.x pos.x (eff_delta node event).x (max_offset computed).x,
   step_axis node.overflow.y pos.y (eff_delta node event).y (max_offset computed).y⟩

/-- Folding a sequence of scroll events through the observer on a fixed
container. -/
def apply_events (node : Node) (computed : ComputedNode) (pos : ScrollPosition)
    (events : List Vec2) : ScrollPosition :=
  events.foldl (fun p e => scroll_observer e node computed p) pos

/-- Thumb geometry: percentage length and percentage offset of a scrollbar
thumb along its track (the `height`/`top`, resp. `width`/`left`, fields of
the thumb `Node` written by `update_scrollbars`). -/
structure ThumbGeom where
  length : ℚ
  offset : ℚ
deriving DecidableEq

/-- One axis of `update_scrollbars` (scroll.rs lines 339-352 for the
vertical axis, 361-374 for the horizontal axis): when
`max_scroll = (content - size) * scale` is positive the thumb length and
offset percentages are recomputed, otherwise the thumb node is left
untouched. -/
def update_thumb_axis (content size scale pos : ℚ) (old : ThumbGeom) : ThumbGeom :=
  if (content - size) * scale > 0 then
    ⟨max (clampQ (size / content) 0 1 * 100) SCROLLBAR_MIN_THUMB_SIZE,
     clampQ (pos / ((content - size) * scale)) 0 1
       * (100 - max (clampQ (size / content) 0 1 * 100) SCROLLBAR_MIN_THUMB_SIZE)⟩
  else
    old

/-- The `ControlOrientation` of a spawned `Scrollbar`. -/
inductive ControlOrientation where
  | horizontal
  | vertical
deriving DecidableEq, BEq

/-- A scrollbar entity as spawned by `spawn_scrollbars` (scroll.rs lines
244-321): the entity it is attached to as a child (`wrapper_entity`, the
container's parent), the container it targets (`Scrollbar.target`), its
orientation, its minimum thumb length, and the fact that a
`CoreScrollbarThumb` child is spawned inside it (`has_thumb`, always true
in the source: both branches spawn the thumb via `with_children`). -/
structure SpawnedScrollbar where
  attached_to : Nat
  target : Nat
  orient : ControlOrientation
  min_thumb_length : ℚ
  has_thumb : Bool
deriving DecidableEq

/-- The scrollbars spawned for one container by `spawn_scrollbars`
(scroll.rs lines 236-322): nothing when `show_scrollbars` is off; one
vertical scrollbar-with-thumb when `overflow.y == Scroll` and one
horizontal scrollbar-with-thumb when `overflow.x == Scroll`, each added
as a child of `wrapper_entity = child_of.parent()` and targeting the
container entity. -/
def spawn_scrollbars_for (entity parent : Nat) (overflow : Overflow)
    (show_scrollbars : Bool) : List SpawnedScrollbar :=
  if show_scrollbars then
    (if overflow.y = OverflowAxis.scroll then
        [⟨parent, entity, ControlOrientation.vertical, SCROLLBAR_MIN_THUMB_SIZE, true⟩]
      else []) ++
    (if overflow.x = OverflowAxis.scroll then
        [⟨parent, entity, ControlOrientation.horizontal, SCROLLBAR_MIN_THUMB_SIZE, true⟩]
      else [])
  else []

/-- The per-container state the lifecycle manager sees: identity, parent
(wrapper) entity, configuration, the `Added<ScrollContainer>` flag, and
whether the `VScrollbar` / `HScrollbar` thumb markers have been inserted
(scroll.rs lines 279 and 319). -/
structure ContainerState where
  id : Nat
  parent : Nat
  overflow : Overflow
  show_scrollbars : Bool
  just_added : Bool
  has_vthumb : Bool
  has_hthumb : Bool

/-- Modelled from the spec: the semantics of the ECS `Added<ScrollContainer>`
query filter driving `spawn_scrollbars` is engine code not under `src/`;
per the spec the manager is "triggered by a 'just created' transition, not
polled state" and "is never invoked twice for the same container".  One
frame of the lifecycle manager on one container: when the container was
just added (and only then) the spawn pass of scroll.rs lines 236-322 runs,
inserting the thumb markers for the scroll-enabled axes when
`show_scrollbars` is on; the just-added flag is consumed by the frame
either way. -/
def spawn_frame (c : ContainerState) : ContainerState × List SpawnedScrollbar :=
  if c.just_added then
    if c.show_scrollbars then
      ({ c with
          has_vthumb := c.has_vthumb || decide (c.overflow.y = OverflowAxis.scroll),
          has_hthumb := c.has_hthumb || decide (c.overflow.x = OverflowAxis.scroll),
          just_added := false },
        spawn_scrollbars_for c.id c.parent c.overflow c.show_scrollbars)
    else
      ({ c with just_added := false }, [])
  else
    ({ c with just_added := false }, [])

/-- The two systems registered by `ScrollbarPlugin::build`
(scroll.rs lines 24-28). -/
inductive ScrollSystem where
  | spawnScrollbars
  | updateScrollbars
deriving DecidableEq

/-- The system set registered by
`app.add_systems(PostUpdate, (spawn_scrollbars, update_scrollbars))`
(scroll.rs line 26). -/
def scrollbar_plugin_systems : List ScrollSystem :=
  [ScrollSystem.spawnScrollbars, ScrollSystem.updateScrollbars]

/-- Modelled from the spec: `bevy_app::App::add_systems` and the schedule
executor are engine code not under `src/`.  The spec (§5) describes system
run order as constraint-based ("ordered", "a hard ordering constraint");
accordingly a schedule is its system set plus explicit before-edges, and
an executor may pick any order satisfying the edges.  A plain tuple
`(a, b)` passed to `add_systems` — no `.chain()`, no `.before`/`.after`
(scroll.rs line 26) — registers the systems with no edge between them. -/
def scrollbar_plugin_edges : List (ScrollSystem × ScrollSystem) := []

/-- An execution order of the PostUpdate schedule built by
`ScrollbarPlugin::build` is valid when it runs each registered system once
and respects every registered before-edge. -/
def valid_order (order : List ScrollSystem) : Prop :=
  order.Perm scrollbar_plugin_systems ∧
    ∀ e ∈ scrollbar_plugin_edges, order.indexOf e.1 < order.indexOf e.2

/-- System `a` runs before system `b` in a given execution order. -/
def runs_before (a b : ScrollSystem) (order : List ScrollSystem) : Prop :=
  order.indexOf a < order.indexOf b

/-! Helper lemmas about the embedded operations. -/

theorem clampQ_eq_max (v m : ℚ) (h : m ≤ v) : clampQ v 0 m = m := by
  unfold clampQ
  exact min_eq_right (le_trans h (le_max_left v 0))

theorem clampQ_eq_zero (v m : ℚ) (hv : v ≤ 0) (hm : 0 ≤ m) : clampQ v 0 m = 0 := by
  unfold clampQ
  rw [max_eq_right hv]
  exact min_eq_left hm

theorem step_axis_not_enabled (o : OverflowAxis) (pos d m : ℚ)
    (h : o ≠ OverflowAxis.scroll) : step_axis o pos d m = pos := by
  unfold step_axis
  rw [if_neg (fun hc => h hc.1)]

theorem step_axis_zero_delta (o : OverflowAxis) (pos m : ℚ) :
    step_axis o pos 0 m = pos := by
  unfold step_axis
  rw [if_neg (fun hc => hc.2 rfl)]

theorem step_axis_limit_pos (pos d m : ℚ) (hd : 0 < d) (hl : m ≤ pos) :
    step_axis OverflowAxis.scroll pos d m = pos := by
  unfold step_axis
  rw [if_pos ⟨rfl, ne_of_gt hd⟩, if_pos hd, if_pos hl]

theorem step_axis_limit_neg (pos d m : ℚ) (hd : d < 0) (hl : pos ≤ 0) :
    step_axis OverflowAxis.scroll pos d m = pos := by
  unfold step_axis
  rw [if_pos ⟨rfl, ne_of_lt hd⟩, if_neg (not_lt.mpr hd.le), if_pos hl]

theorem step_axis_clamp_pos (pos d m : ℚ) (hd : 0 < d) (hl : pos < m) :
    step_axis OverflowAxis.scroll pos d m = clampQ (pos + d) 0 m := by
  unfold step_axis
  rw [if_pos ⟨rfl, ne_of_gt hd⟩, if_pos hd, if_neg (not_le.mpr hl)]

theorem step_axis_clamp_neg (pos d m : ℚ) (hd : d < 0) (hl : 0 < pos) :
    step_axis OverflowAxis.scroll pos d m = clampQ (pos + d) 0 m := by
  unfold step_axis
  rw [if_pos ⟨rfl, ne_of_lt hd⟩, if_neg (not_lt.mpr hd.le), if_neg (not_le.mpr hl)]

theorem step_axis_bounds (o : OverflowAxis) (pos d m : ℚ)
    (h0 : 0 ≤ pos) (h1 : pos ≤ max m 0) :
    0 ≤ step_axis o pos d m ∧ step_axis o pos d m ≤ max m 0 := by
  unfold step_axis clampQ
  split
  · split
    · split
      · exact ⟨h0, h1⟩
      · rename_i hlim
        have hm : 0 < m := lt_of_le_of_lt h0 (lt_of_not_ge hlim)
        exact ⟨le_min (le_max_right _ _) hm.le,
          le_trans (min_le_right _ _) (le_max_left _ _)⟩
    · split
      · exact ⟨h0, h1⟩
      · rename_i hlim
        have hm : 0 < m := by
          rcases le_or_lt m 0 with h | h
          · rw [max_eq_right h] at h1
            exact absurd h1 hlim
          · exact h
        exact ⟨le_min (le_max_right _ _) hm.le,
          le_trans (min_le_right _ _) (le_max_left _ _)⟩
  · exact ⟨h0, h1⟩

theorem step_axis_le_self_of_nonpos (o : OverflowAxis) (pos d m : ℚ) (hd : d ≤ 0) :
    step_axis o pos d m ≤ pos := by
  unfold step_axis clampQ
  split
  · split
    · rename_i hdpos
      exact absurd hdpos (not_lt.mpr hd)
    · split
      · exact le_refl pos
      · rename_i hlim
        have hpos : 0 < pos := lt_of_not_ge hlim
        exact le_trans (min_le_left _ _) (max_le (by linarith) hpos.le)
  · exact le_refl pos

theorem step_axis_zero_of_nonpos (o : OverflowAxis) (d m : ℚ) (hm : m ≤ 0) :
    step_axis o 0 d m = 0 := by
  unfold step_axis
  by_cases hc : o = OverflowAxis.scroll ∧ d ≠ 0
  · rw [if_pos hc]
    by_cases hd : 0 < d
    · rw [if_pos hd, if_pos (show (0:ℚ) ≥ m from hm)]
    · rw [if_neg hd, if_pos (le_refl (0:ℚ))]
  · rw [if_neg hc]

theorem scroll_observer_preserves (e : Vec2) (n : Node) (c : ComputedNode)
    (p : ScrollPosition) (hx0 : 0 ≤ p.x) (hx1 : p.x ≤ max (max_offset c).x 0)
    (hy0 : 0 ≤ p.y) (hy1 : p.y ≤ max (max_offset c).y 0) :
    0 ≤ (scroll_observer e n c p).x ∧
      (scroll_observer e n c p).x ≤ max (max_offset c).x 0 ∧
      0 ≤ (scroll_observer e n c p).y ∧
      (scroll_observer e n c p).y ≤ max (max_offset c).y 0 := by
  have hx := step_axis_bounds n.overflow.x p.x (eff_delta n e).x (max_offset c).x hx0 hx1
  have hy := step_axis_bounds n.overflow.y p.y (eff_delta n e).y (max_offset c).y hy0 hy1
  exact ⟨hx.1, hx.2, hy.1, hy.2⟩

theorem step_axis_cases (o : OverflowAxis) (pos d m : ℚ) (ho : o = OverflowAxis.scroll) :
    (0 < d → m ≤ pos → step_axis o pos d m = pos) ∧
    (d < 0 → pos ≤ 0 → step_axis o pos d m = pos) ∧
    (0 < d → pos < m → step_axis o pos d m = clampQ (pos + d) 0 m) ∧
    (d < 0 → 0 < pos → step_axis o pos d m = clampQ (pos + d) 0 m) ∧
    (0 < d → pos < m → m ≤ pos + d → step_axis o pos d m = m) ∧
    (d < 0 → 0 < pos → pos + d ≤ 0 → 0 ≤ m → step_axis o pos d m = 0) := by
  subst ho
  refine ⟨step_axis_limit_pos pos d m, step_axis_limit_neg pos d m,
    step_axis_clamp_pos pos d m, step_axis_clamp_neg pos d m, ?_, ?_⟩
  · intro hd hl hover
    rw [step_axis_clamp_pos pos d m hd hl]
    exact clampQ_eq_max _ _ hover
  · intro hd hl hover hm
    rw [step_axis_clamp_neg pos d m hd hl]
    exact clampQ_eq_zero _ _ hover hm

theorem update_thumb_axis_skip_helper (content size scale pos : ℚ) (old : ThumbGeom)
    (h : (content - size) * scale ≤ 0) :
    update_thumb_axis content size scale pos old = old := by
  unfold update_thumb_axis
  rw [if_neg (not_lt.mpr h)]

theorem update_thumb_axis_run (content size scale pos : ℚ) (old : ThumbGeom)
    (h : 0 < (content - size) * scale) :
    update_thumb_axis content size scale pos old =
      ⟨max (clampQ (size / content) 0 1 * 100) SCROLLBAR_MIN_THUMB_SIZE,
        clampQ (pos / ((content - size) * scale)) 0 1
          * (100 - max (clampQ (size / content) 0 1 * 100) SCROLLBAR_MIN_THUMB_SIZE)⟩ := by
  unfold update_thumb_axis
  rw [if_pos h]

theorem max_offset_x_nonpos (c : ComputedNode) (h : c.content_size.x ≤ c.size.x)
    (hs : 0 ≤ c.inverse_scale_factor) : (max_offset c).x ≤ 0 := by
  have hsub : c.content_size.x - c.size.x ≤ 0 := by linarith
  exact mul_nonpos_iff.mpr (Or.inr ⟨hsub, hs⟩)

theorem max_offset_y_nonpos (c : ComputedNode) (h : c.content_size.y ≤ c.size.y)
    (hs : 0 ≤ c.inverse_scale_factor) : (max_offset c).y ≤ 0 := by
  have hsub : c.content_size.y - c.size.y ≤ 0 := by linarith
  exact mul_nonpos_iff.mpr (Or.inr ⟨hsub, hs⟩)

theorem apply_events_x_pinned (n : Node) (c : ComputedNode) (p : ScrollPosition)
    (events : List Vec2) (hm : (max_offset c).x ≤ 0) (hp : p.x = 0) :
    (apply_events n c p events).x = 0 := by
  induction events generalizing p with
  | nil => exact hp
  | cons e es ih =>
    apply ih
    show step_axis n.overflow.x p.x (eff_delta n e).x (max_offset c).x = 0
    rw [hp]
    exact step_axis_zero_of_nonpos _ _ _ hm

theorem apply_events_y_pinned (n : Node) (c : ComputedNode) (p : ScrollPosition)
    (events : List Vec2) (hm : (max_offset c).y ≤ 0) (hp : p.y = 0) :
    (apply_events n c p events).y = 0 := by
  induction events generalizing p with
  | nil => exact hp
  | cons e es ih =>
    apply ih
    show step_axis n.overflow.y p.y (eff_delta n e).y (max_offset c).y = 0
    rw [hp]
    exact step_axis_zero_of_nonpos _ _ _ hm

/-! Claim theorems. -/

/-- C1: for every scroll container and every axis, if the scroll offset is
within `[0, max (max_offset) 0]` before the scroll observer processes a
`Pointer<Scroll>` event, it remains within that range afterward; applying
any sequence of deltas never produces a negative offset or one exceeding
`max_offset` for that axis. -/
theorem scroll_offset_invariant (n : Node) (c : ComputedNode) (p : ScrollPosition)
    (events : List Vec2)
    (hx0 : 0 ≤ p.x) (hx1 : p.x ≤ max (max_offset c).x 0)
    (hy0 : 0 ≤ p.y) (hy1 : p.y ≤ max (max_offset c).y 0) :
    0 ≤ (apply_events n c p events).x ∧
      (apply_events n c p events).x ≤ max (max_offset c).x 0 ∧
      0 ≤ (apply_events n c p events).y ∧
      (apply_events n c p events).y ≤ max (max_offset c).y 0 := by
  induction events generalizing p with
  | nil => exact ⟨hx0, hx1, hy0, hy1⟩
  | cons e es ih =>
    have h := scroll_observer_preserves e n c p hx0 hx1 hy0 hy1
    exact ih (scroll_observer e n c p) h.1 h.2.1 h.2.2.1 h.2.2.2

/-- Witness for C1: a bidirectional container of content 1000×1000,
viewport 200×200, scale 1, starting at offset (100, 50), hit by the event
sequence [(3, 4), (-100, 20)]; the offsets stay within
`[0, max (max_offset) 0] = [0, 800]` on both axes. -/
theorem scroll_offset_invariant_witness :
    ((0:ℚ) ≤ 100 ∧ (100:ℚ) ≤ max (max_offset ⟨⟨1000, 1000⟩, ⟨200, 200⟩, 1⟩).x 0 ∧
      (0:ℚ) ≤ 50 ∧ (50:ℚ) ≤ max (max_offset ⟨⟨1000, 1000⟩, ⟨200, 200⟩, 1⟩).y 0) ∧
    (0 ≤ (apply_events ⟨⟨OverflowAxis.scroll, OverflowAxis.scroll⟩⟩
        ⟨⟨1000, 1000⟩, ⟨200, 200⟩, 1⟩ ⟨100, 50⟩ [⟨3, 4⟩, ⟨-100, 20⟩]).x ∧
      (apply_events ⟨⟨OverflowAxis.scroll, OverflowAxis.scroll⟩⟩
        ⟨⟨1000, 1000⟩, ⟨200, 200⟩, 1⟩ ⟨100, 50⟩ [⟨3, 4⟩, ⟨-100, 20⟩]).x
        ≤ max (max_offset ⟨⟨1000, 1000⟩, ⟨200, 200⟩, 1⟩).x 0 ∧
      0 ≤ (apply_events ⟨⟨OverflowAxis.scroll, OverflowAxis.scroll⟩⟩
        ⟨⟨1000, 1000⟩, ⟨200, 200⟩, 1⟩ ⟨100, 50⟩ [⟨3, 4⟩, ⟨-100, 20⟩]).y ∧
      (apply_events ⟨⟨OverflowAxis.scroll, OverflowAxis.scroll⟩⟩
        ⟨⟨1000, 1000⟩, ⟨200, 200⟩, 1⟩ ⟨100, 50⟩ [⟨3, 4⟩, ⟨-100, 20⟩]).y
        ≤ max (max_offset ⟨⟨1000, 1000⟩, ⟨200, 200⟩, 1⟩).y 0) :=
  ⟨⟨by norm_num, by norm_num [max_offset, le_max_iff],
    by norm_num, by norm_num [max_offset, le_max_iff]⟩,
    scroll_offset_invariant ⟨⟨OverflowAxis.scroll, OverflowAxis.scroll⟩⟩
      ⟨⟨1000, 1000⟩, ⟨200, 200⟩, 1⟩ ⟨100, 50⟩ [⟨3, 4⟩, ⟨-100, 20⟩]
      (by norm_num) (by norm_num [max_offset, le_max_iff])
      (by norm_num) (by norm_num [max_offset, le_max_iff])⟩

/-- C2: per axis, the scroll observer never mutates an axis whose overflow
is not `Scroll`; on an enabled axis with a nonzero working delta, a delta
in the direction of an already-reached boundary is a no-op, otherwise the
new offset is `clamp(old + delta, 0, max_offset)`, and a delta that
overshoots lands exactly on `max_offset` (resp. on 0, when `max_offset`
is nonnegative). -/
theorem scroll_observer_axis_cases (e : Vec2) (n : Node) (c : ComputedNode)
    (p : ScrollPosition) :
    (n.overflow.x ≠ OverflowAxis.scroll → (scroll_observer e n c p).x = p.x) ∧
    (n.overflow.y ≠ OverflowAxis.scroll → (scroll_observer e n c p).y = p.y) ∧
    (n.overflow.x = OverflowAxis.scroll →
      (0 < (eff_delta n e).x → (max_offset c).x ≤ p.x →
        (scroll_observer e n c p).x = p.x) ∧
      ((eff_delta n e).x < 0 → p.x ≤ 0 → (scroll_observer e n c p).x = p.x) ∧
      (0 < (eff_delta n e).x → p.x < (max_offset c).x →
        (scroll_observer e n c p).x = clampQ (p.x + (eff_delta n e).x) 0 (max_offset c).x) ∧
      ((eff_delta n e).x < 0 → 0 < p.x →
        (scroll_observer e n c p).x = clampQ (p.x + (eff_delta n e).x) 0 (max_offset c).x) ∧
      (0 < (eff_delta n e).x → p.x < (max_offset c).x →
        (max_offset c).x ≤ p.x + (eff_delta n e).x →
        (scroll_observer e n c p).x = (max_offset c).x) ∧
      ((eff_delta n e).x < 0 → 0 < p.x → p.x + (eff_delta n e).x ≤ 0 →
        0 ≤ (max_offset c).x → (scroll_observer e n c p).x = 0)) ∧
    (n.overflow.y = OverflowAxis.scroll →
      (0 < (eff_delta n e).y → (max_offset c).y ≤ p.y →
        (scroll_observer e n c p).y = p.y) ∧
      ((eff_delta n e).y < 0 → p.y ≤ 0 → (scroll_observer e n c p).y = p.y) ∧
      (0 < (eff_delta n e).y → p.y < (max_offset c).y →
        (scroll_observer e n c p).y = clampQ (p.y + (eff_delta n e).y) 0 (max_offset c).y) ∧
      ((eff_delta n e).y < 0 → 0 < p.y →
        (scroll_observer e n c p).y = clampQ (p.y + (eff_delta n e).y) 0 (max_offset c).y) ∧
      (0 < (eff_delta n e).y → p.y < (max_offset c).y →
        (max_offset c).y ≤ p.y + (eff_delta n e).y →
        (scroll_observer e n c p).y = (max_offset c).y) ∧
      ((eff_delta n e).y < 0 → 0 < p.y → p.y + (eff_delta n e).y ≤ 0 →
        0 ≤ (max_offset c).y → (scroll_observer e n c p).y = 0)) := by
  refine ⟨?_, ?_, ?_, ?_⟩
  · intro h
    exact step_axis_not_enabled _ _ _ _ h
  · intro h
    exact step_axis_not_enabled _ _ _ _ h
  · intro h
    exact step_axis_cases n.overflow.x p.x (eff_delta n e).x (max_offset c).x h
  · intro h
    exact step_axis_cases n.overflow.y p.y (eff_delta n e).y (max_offset c).y h

/-- Witness for C2: a bidirectional 1000×1000-content, 200×200-viewport
container at offset (0, 100) receiving event (0, -1); the working delta is
(0, 21) after line scaling, and the y offset becomes
`clamp(100 + 21, 0, 800) = 121` while the x axis is untouched by its zero
delta; the disabled-axis clause is also exercised on a no-scroll node. -/
theorem scroll_observer_axis_cases_witness :
    (0:ℚ) < (eff_delta ⟨⟨OverflowAxis.scroll, OverflowAxis.scroll⟩⟩ ⟨0, -1⟩).y ∧
    (100:ℚ) < (max_offset ⟨⟨1000, 1000⟩, ⟨200, 200⟩, 1⟩).y ∧
    (scroll_observer ⟨0, -1⟩ ⟨⟨OverflowAxis.scroll, OverflowAxis.scroll⟩⟩
        ⟨⟨1000, 1000⟩, ⟨200, 200⟩, 1⟩ ⟨0, 100⟩).y
      = clampQ (100 + (eff_delta ⟨⟨OverflowAxis.scroll, OverflowAxis.scroll⟩⟩ ⟨0, -1⟩).y)
          0 (max_offset ⟨⟨1000, 1000⟩, ⟨200, 200⟩, 1⟩).y ∧
    (scroll_observer ⟨0, -1⟩ ⟨⟨OverflowAxis.visible, OverflowAxis.visible⟩⟩
        ⟨⟨1000, 1000⟩, ⟨200, 200⟩, 1⟩ ⟨0, 100⟩).y = 100 :=
  ⟨by norm_num [eff_delta, scaled_delta, raw_delta, redirected_delta, LINE_HEIGHT],
    by norm_num [max_offset],
    ((scroll_observer_axis_cases ⟨0, -1⟩ ⟨⟨OverflowAxis.scroll, OverflowAxis.scroll⟩⟩
        ⟨⟨1000, 1000⟩, ⟨200, 200⟩, 1⟩ ⟨0, 100⟩).2.2.2 rfl).2.2.1
      (by norm_num [eff_delta, scaled_delta, raw_delta, redirected_delta, LINE_HEIGHT])
      (by norm_num [max_offset]),
    (scroll_observer_axis_cases ⟨0, -1⟩ ⟨⟨OverflowAxis.visible, OverflowAxis.visible⟩⟩
        ⟨⟨1000, 1000⟩, ⟨200, 200⟩, 1⟩ ⟨0, 100⟩).2.1 (by simp)⟩

/-- C3: on a scrollable axis with positive `max_offset` the recomputed
thumb length percentage is `max(clamp(viewport/content, 0, 1) * 100, 10)`
and the thumb offset percentage is
`clamp(offset/max_offset, 0, 1) * (100 - length)`; with
`0 < viewport ≤ content` the length lies in `[10, 100]`; content 1000,
viewport 200 at offset 0 gives (20%, 0%) and at offset 800 gives
(20%, 80%). -/
theorem update_thumb_axis_formula (content size scale pos : ℚ) (old : ThumbGeom)
    (hm : 0 < (content - size) * scale) :
    (update_thumb_axis content size scale pos old).length
        = max (clampQ (size / content) 0 1 * 100) SCROLLBAR_MIN_THUMB_SIZE ∧
    (update_thumb_axis content size scale pos old).offset
        = clampQ (pos / ((content - size) * scale)) 0 1
            * (100 - (update_thumb_axis content size scale pos old).length) ∧
    (0 < size → size ≤ content →
      SCROLLBAR_MIN_THUMB_SIZE ≤ (update_thumb_axis content size scale pos old).length ∧
        (update_thumb_axis content size scale pos old).length ≤ 100) ∧
    update_thumb_axis 1000 200 1 0 old = ⟨20, 0⟩ ∧
    update_thumb_axis 1000 200 1 800 old = ⟨20, 80⟩ := by
  rw [update_thumb_axis_run content size scale pos old hm]
  refine ⟨rfl, rfl, ?_, ?_, ?_⟩
  · intro _ _
    constructor
    · exact le_max_right _ _
    · apply max_le
      · have h1 : clampQ (size / content) 0 1 ≤ 1 := min_le_right _ _
        calc clampQ (size / content) 0 1 * 100 ≤ 1 * 100 :=
              mul_le_mul_of_nonneg_right h1 (by norm_num)
          _ = 100 := by norm_num
      · norm_num [SCROLLBAR_MIN_THUMB_SIZE]
  · norm_num [update_thumb_axis, clampQ, SCROLLBAR_MIN_THUMB_SIZE]
  · norm_num [update_thumb_axis, clampQ, SCROLLBAR_MIN_THUMB_SIZE]

/-- Witness for C3: the content-1000 / viewport-200 / scale-1 container
itself: `max_offset = 800 > 0`, viewport positive and at most the content,
thumb length 20% within `[10, 100]`, and both spec scenarios hold. -/
theorem update_thumb_axis_formula_witness :
    (0:ℚ) < ((1000:ℚ) - 200) * 1 ∧ (0:ℚ) < 200 ∧ (200:ℚ) ≤ 1000 ∧
    SCROLLBAR_MIN_THUMB_SIZE ≤ (update_thumb_axis 1000 200 1 0 ⟨0, 0⟩).length ∧
    (update_thumb_axis 1000 200 1 0 ⟨0, 0⟩).length ≤ 100 ∧
    update_thumb_axis 1000 200 1 0 ⟨0, 0⟩ = ⟨20, 0⟩ ∧
    update_thumb_axis 1000 200 1 800 ⟨0, 0⟩ = ⟨20, 80⟩ :=
  ⟨by norm_num, by norm_num, by norm_num,
    ((update_thumb_axis_formula 1000 200 1 0 ⟨0, 0⟩ (by norm_num)).2.2.1
      (by norm_num) (by norm_num)).1,
    ((update_thumb_axis_formula 1000 200 1 0 ⟨0, 0⟩ (by norm_num)).2.2.1
      (by norm_num) (by norm_num)).2,
    (update_thumb_axis_formula 1000 200 1 0 ⟨0, 0⟩ (by norm_num)).2.2.2.1,
    (update_thumb_axis_formula 1000 200 1 0 ⟨0, 0⟩ (by norm_num)).2.2.2.2⟩

/-- Counterexample for C4: content 100 ≤ viewport 200 (scale 1), thumb
previously at its spawn default of 20% length; the geometry update leaves
the thumb at 20% — it does not come to consume the whole track (length
100%) as the claim states. -/
theorem no_overflow_thumb_counterexample :
    (100:ℚ) ≤ 200 ∧
    update_thumb_axis 100 200 1 0 ⟨20, 0⟩ = ⟨20, 0⟩ ∧
    (update_thumb_axis 100 200 1 0 ⟨20, 0⟩).length ≠ 100 := by
  refine ⟨by norm_num, ?_, ?_⟩
  · exact update_thumb_axis_skip_helper 100 200 1 0 ⟨20, 0⟩ (by norm_num)
  · rw [update_thumb_axis_skip_helper 100 200 1 0 ⟨20, 0⟩ (by norm_num)]
    norm_num

/-- C4 (amended): for every axis with content ≤ viewport (and nonnegative
inverse scale factor), the spec-level maximum offset `max (max_offset) 0`
is 0 and a scroll offset of 0 on that axis stays pinned at 0 under any
event sequence; the geometry update skips the axis and leaves the thumb
geometry unchanged (it keeps its last-computed value — it is not set to
consume the whole track). -/
theorem no_overflow_axis_pinned (n : Node) (c : ComputedNode) (p : ScrollPosition)
    (events : List Vec2) (old : ThumbGeom) :
    (c.content_size.x ≤ c.size.x → 0 ≤ c.inverse_scale_factor →
      max (max_offset c).x 0 = 0 ∧
      (p.x = 0 → (apply_events n c p events).x = 0) ∧
      update_thumb_axis c.content_size.x c.size.x c.inverse_scale_factor p.x old = old) ∧
    (c.content_size.y ≤ c.size.y → 0 ≤ c.inverse_scale_factor →
      max (max_offset c).y 0 = 0 ∧
      (p.y = 0 → (apply_events n c p events).y = 0) ∧
      update_thumb_axis c.content_size.y c.size.y c.inverse_scale_factor p.y old = old) := by
  constructor
  · intro h hs
    have hm := max_offset_x_nonpos c h hs
    refine ⟨max_eq_right hm, fun hp => apply_events_x_pinned n c p events hm hp, ?_⟩
    apply update_thumb_axis_skip_helper
    exact hm
  · intro h hs
    have hm := max_offset_y_nonpos c h hs
    refine ⟨max_eq_right hm, fun hp => apply_events_y_pinned n c p events hm hp, ?_⟩
    apply update_thumb_axis_skip_helper
    exact hm

/-- Witness for C4 (amended): content 100×100 inside a 200×200 viewport at
scale 1, starting at offset (0, 0), scrolled by events [(4, -6)]: the
maximum offset is 0, both offsets stay 0, and the thumb geometry (20%, 0%)
is left unchanged. -/
theorem no_overflow_axis_pinned_witness :
    ((100:ℚ) ≤ 200 ∧ (0:ℚ) ≤ 1) ∧
    max (max_offset ⟨⟨100, 100⟩, ⟨200, 200⟩, 1⟩).y 0 = 0 ∧
    (apply_events ⟨⟨OverflowAxis.scroll, OverflowAxis.scroll⟩⟩
        ⟨⟨100, 100⟩, ⟨200, 200⟩, 1⟩ ⟨0, 0⟩ [⟨4, -6⟩]).y = 0 ∧
    update_thumb_axis 100 200 1 0 ⟨20, 0⟩ = ⟨20, 0⟩ :=
  ⟨⟨by norm_num, by norm_num⟩,
    ((no_overflow_axis_pinned ⟨⟨OverflowAxis.scroll, OverflowAxis.scroll⟩⟩
        ⟨⟨100, 100⟩, ⟨200, 200⟩, 1⟩ ⟨0, 0⟩ [⟨4, -6⟩] ⟨20, 0⟩).2
      (by norm_num) (by norm_num)).1,
    ((no_overflow_axis_pinned ⟨⟨OverflowAxis.scroll, OverflowAxis.scroll⟩⟩
        ⟨⟨100, 100⟩, ⟨200, 200⟩, 1⟩ ⟨0, 0⟩ [⟨4, -6⟩] ⟨20, 0⟩).2
      (by norm_num) (by norm_num)).2.1 rfl,
    ((no_overflow_axis_pinned ⟨⟨OverflowAxis.scroll, OverflowAxis.scroll⟩⟩
        ⟨⟨100, 100⟩, ⟨200, 200⟩, 1⟩ ⟨0, 0⟩ [⟨4, -6⟩] ⟨20, 0⟩).2
      (by norm_num) (by norm_num)).2.2⟩

/-- C5: on an axis whose `max_offset` is nonpositive, one pass of the
thumb geometry calculator returns the previous thumb geometry unchanged —
the calculation (with its divisions) is skipped entirely. -/
theorem update_thumb_axis_skip (content size scale pos : ℚ) (old : ThumbGeom)
    (h : (content - size) * scale ≤ 0) :
    update_thumb_axis content size scale pos old = old :=
  update_thumb_axis_skip_helper content size scale pos old h

/-- Witness for C5: content 100, viewport 200, scale 1 (so
`max_offset = -100 ≤ 0`), offset 5: the thumb geometry (20%, 0%) is
returned untouched. -/
theorem update_thumb_axis_skip_witness :
    ((100:ℚ) - 200) * 1 ≤ 0 ∧ update_thumb_axis 100 200 1 5 ⟨20, 0⟩ = ⟨20, 0⟩ :=
  ⟨by norm_num, update_thumb_axis_skip 100 200 1 5 ⟨20, 0⟩ (by norm_num)⟩

theorem scaled_delta_x_neg (e : Vec2) (h : 0 < e.x) : (scaled_delta e).x < 0 := by
  unfold scaled_delta
  split
  · show (raw_delta e).x * LINE_HEIGHT < 0
    have hx : (raw_delta e).x = -e.x := rfl
    rw [hx]
    exact mul_neg_of_neg_of_pos (by linarith) (by norm_num [LINE_HEIGHT])
  · show (raw_delta e).x < 0
    have hx : (raw_delta e).x = -e.x := rfl
    rw [hx]
    linarith

theorem scaled_delta_y_neg (e : Vec2) (h : 0 < e.y) : (scaled_delta e).y < 0 := by
  unfold scaled_delta
  split
  · show (raw_delta e).y * LINE_HEIGHT < 0
    have hy : (raw_delta e).y = -e.y := rfl
    rw [hy]
    exact mul_neg_of_neg_of_pos (by linarith) (by norm_num [LINE_HEIGHT])
  · show (raw_delta e).y < 0
    have hy : (raw_delta e).y = -e.y := rfl
    rw [hy]
    linarith

theorem eff_delta_x_nonpos (n : Node) (e : Vec2) (h : 0 < e.x) :
    (eff_delta n e).x ≤ 0 := by
  unfold eff_delta redirected_delta
  split
  · rename_i hc
    exact absurd hc.2.2.1 (ne_of_lt (scaled_delta_x_neg e h))
  · exact (scaled_delta_x_neg e h).le

theorem eff_delta_y_nonpos (n : Node) (e : Vec2) (h : 0 < e.y) :
    (eff_delta n e).y ≤ 0 := by
  unfold eff_delta redirected_delta
  split
  · show (0:ℚ) ≤ 0
    exact le_refl 0
  · exact (scaled_delta_y_neg e h).le

/-- Counterexample for C6: a vertical-only container (overflow x Visible,
y Scroll; content 500×1000, viewport 500×200, scale 1) at offset (0, 100)
receives the pure-horizontal event (-5, 0) — working delta (5, 0), scaled
to (105, 0).  The claim says the delta is redirected onto the enabled
y axis, which after clamping would give offset `clamp(100+105, 0, 800)`;
the code performs no such redirection and leaves the position unchanged. -/
theorem redirect_vertical_only_counterexample :
    scroll_observer ⟨-5, 0⟩ ⟨⟨OverflowAxis.visible, OverflowAxis.scroll⟩⟩
        ⟨⟨500, 1000⟩, ⟨500, 200⟩, 1⟩ ⟨0, 100⟩ = ⟨0, 100⟩ ∧
    (scroll_observer ⟨-5, 0⟩ ⟨⟨OverflowAxis.visible, OverflowAxis.scroll⟩⟩
        ⟨⟨500, 1000⟩, ⟨500, 200⟩, 1⟩ ⟨0, 100⟩).y
      ≠ clampQ (100 + (scaled_delta ⟨-5, 0⟩).x) 0
          (max_offset ⟨⟨500, 1000⟩, ⟨500, 200⟩, 1⟩).y := by
  constructor
  · norm_num [scroll_observer, eff_delta, scaled_delta, raw_delta, redirected_delta,
      step_axis, max_offset, LINE_HEIGHT, clampQ]
  · norm_num [scroll_observer, eff_delta, scaled_delta, raw_delta, redirected_delta,
      step_axis, max_offset, LINE_HEIGHT, clampQ, min_def, max_def]

/-- C6 (amended): only the horizontal direction is special-cased: a
horizontal-only container (overflow x Scroll, y not Scroll) receiving a
working delta with zero x component and nonzero y component has that
delta redirected onto the x axis (y is untouched); on a container whose
x axis is not scrollable no redirection ever occurs, and in particular a
vertical-only container receiving a pure-horizontal event is left
completely unchanged. -/
theorem redirect_horizontal_only (e : Vec2) (n : Node) (c : ComputedNode)
    (p : ScrollPosition) :
    (n.overflow.x = OverflowAxis.scroll → n.overflow.y ≠ OverflowAxis.scroll →
      (scaled_delta e).x = 0 → (scaled_delta e).y ≠ 0 →
      eff_delta n e = ⟨(scaled_delta e).y, 0⟩ ∧ (scroll_observer e n c p).y = p.y) ∧
    (n.overflow.x ≠ OverflowAxis.scroll → eff_delta n e = scaled_delta e) ∧
    (n.overflow.x ≠ OverflowAxis.scroll → n.overflow.y = OverflowAxis.scroll →
      e.y = 0 → scroll_observer e n c p = p) := by
  refine ⟨?_, ?_, ?_⟩
  · intro hx hy h0 hne
    have hd : eff_delta n e = ⟨(scaled_delta e).y, 0⟩ := by
      unfold eff_delta redirected_delta
      rw [if_pos ⟨hx, hy, h0, hne⟩]
    refine ⟨hd, ?_⟩
    show step_axis n.overflow.y p.y (eff_delta n e).y (max_offset c).y = p.y
    rw [hd]
    exact step_axis_zero_delta _ _ _
  · intro hx
    unfold eff_delta redirected_delta
    rw [if_neg (fun hc => hx hc.1)]
  · intro hx hy he
    have hsy : (scaled_delta e).y = 0 := by
      unfold scaled_delta
      split
      · show (raw_delta e).y * LINE_HEIGHT = 0
        have h : (raw_delta e).y = -e.y := rfl
        rw [h, he]
        ring
      · show (raw_delta e).y = 0
        have h : (raw_delta e).y = -e.y := rfl
        rw [h, he]
        ring
    have hde : eff_delta n e = scaled_delta e := by
      unfold eff_delta redirected_delta
      rw [if_neg (fun hc => hx hc.1)]
    have h1 : (scroll_observer e n c p).x = p.x := step_axis_not_enabled _ _ _ _ hx
    have h2 : (scroll_observer e n c p).y = p.y := by
      show step_axis n.overflow.y p.y (eff_delta n e).y (max_offset c).y = p.y
      rw [hde, hsy]
      exact step_axis_zero_delta _ _ _
    exact ScrollPosition.ext h1 h2

/-- Witness for C6 (amended): a horizontal-only container receiving pure
vertical event (0, -2) — working delta (0, 42) redirected onto x, y
untouched — and a vertical-only container receiving pure-horizontal event
(7, 0), which is left unchanged. -/
theorem redirect_horizontal_only_witness :
    (scaled_delta ⟨0, -2⟩).x = 0 ∧ (scaled_delta ⟨0, -2⟩).y ≠ 0 ∧
    eff_delta ⟨⟨OverflowAxis.scroll, OverflowAxis.visible⟩⟩ ⟨0, -2⟩
      = ⟨(scaled_delta ⟨0, -2⟩).y, 0⟩ ∧
    (scroll_observer ⟨0, -2⟩ ⟨⟨OverflowAxis.scroll, OverflowAxis.visible⟩⟩
        ⟨⟨1000, 500⟩, ⟨200, 500⟩, 1⟩ ⟨3, 4⟩).y = 4 ∧
    scroll_observer ⟨7, 0⟩ ⟨⟨OverflowAxis.visible, OverflowAxis.scroll⟩⟩
        ⟨⟨500, 1000⟩, ⟨500, 200⟩, 1⟩ ⟨1, 2⟩ = ⟨1, 2⟩ :=
  ⟨by norm_num [scaled_delta, raw_delta, LINE_HEIGHT],
    by norm_num [scaled_delta, raw_delta, LINE_HEIGHT],
    ((redirect_horizontal_only ⟨0, -2⟩ ⟨⟨OverflowAxis.scroll, OverflowAxis.visible⟩⟩
        ⟨⟨1000, 500⟩, ⟨200, 500⟩, 1⟩ ⟨3, 4⟩).1 rfl (by simp)
      (by norm_num [scaled_delta, raw_delta, LINE_HEIGHT])
      (by norm_num [scaled_delta, raw_delta, LINE_HEIGHT])).1,
    ((redirect_horizontal_only ⟨0, -2⟩ ⟨⟨OverflowAxis.scroll, OverflowAxis.visible⟩⟩
        ⟨⟨1000, 500⟩, ⟨200, 500⟩, 1⟩ ⟨3, 4⟩).1 rfl (by simp)
      (by norm_num [scaled_delta, raw_delta, LINE_HEIGHT])
      (by norm_num [scaled_delta, raw_delta, LINE_HEIGHT])).2,
    (redirect_horizontal_only ⟨7, 0⟩ ⟨⟨OverflowAxis.visible, OverflowAxis.scroll⟩⟩
        ⟨⟨500, 1000⟩, ⟨500, 200⟩, 1⟩ ⟨1, 2⟩).2.2 (by simp) rfl rfl⟩

/-- C7 (refuting the guaranteed ordering): the PostUpdate schedule built
by `ScrollbarPlugin::build` registers `spawn_scrollbars` and
`update_scrollbars` with no before-edge (a plain tuple, no `.chain()`),
so the execution order that runs `update_scrollbars` first is valid and
in it `spawn_scrollbars` does not run before `update_scrollbars`. -/
theorem spawn_before_update_not_guaranteed :
    valid_order [ScrollSystem.updateScrollbars, ScrollSystem.spawnScrollbars] ∧
    ¬ runs_before ScrollSystem.spawnScrollbars ScrollSystem.updateScrollbars
        [ScrollSystem.updateScrollbars, ScrollSystem.spawnScrollbars] := by
  constructor
  · constructor
    · exact List.Perm.swap _ _ _
    · intro ev hev
      simp [scrollbar_plugin_edges] at hev
  · unfold runs_before
    decide

/-- C8: a working delta whose two components both have magnitude strictly
under 10 is multiplied by the line-height factor `LINE_HEIGHT = 21`; if
either component has magnitude 10 or more, neither component is scaled;
and the observer applies this scaling before redirection and before the
offset update. -/
theorem line_unit_scaling (e : Vec2) (n : Node) (c : ComputedNode) (p : ScrollPosition) :
    (|e.x| < 10 → |e.y| < 10 →
      scaled_delta e = ⟨-e.x * LINE_HEIGHT, -e.y * LINE_HEIGHT⟩) ∧
    (¬(|e.x| < 10 ∧ |e.y| < 10) → scaled_delta e = ⟨-e.x, -e.y⟩) ∧
    scroll_observer e n c p =
      ⟨step_axis n.overflow.x p.x (redirected_delta n (scaled_delta e)).x (max_offset c).x,
        step_axis n.overflow.y p.y (redirected_delta n (scaled_delta e)).y (max_offset c).y⟩ := by
  refine ⟨?_, ?_, rfl⟩
  · intro h1 h2
    have hc : |(raw_delta e).x| < 10 ∧ |(raw_delta e).y| < 10 := by
      constructor
      · simpa [raw_delta] using h1
      · simpa [raw_delta] using h2
    unfold scaled_delta
    rw [if_pos hc]
    rfl
  · intro h
    have hc : ¬(|(raw_delta e).x| < 10 ∧ |(raw_delta e).y| < 10) := by
      simpa [raw_delta] using h
    unfold scaled_delta
    rw [if_neg hc]
    rfl

/-- Witness for C8: event (3, -4) (both magnitudes under 10) is scaled by
21 into (-63, 84); event (15, 1) (one magnitude at least 10) is only
negated, into (-15, -1). -/
theorem line_unit_scaling_witness :
    |(3:ℚ)| < 10 ∧ |(-4:ℚ)| < 10 ∧
    scaled_delta ⟨3, -4⟩ = ⟨-3 * LINE_HEIGHT, -(-4) * LINE_HEIGHT⟩ ∧
    ¬(|(15:ℚ)| < 10 ∧ |(1:ℚ)| < 10) ∧
    scaled_delta ⟨15, 1⟩ = ⟨-15, -1⟩ :=
  ⟨by norm_num, by norm_num,
    (line_unit_scaling ⟨3, -4⟩ ⟨⟨OverflowAxis.visible, OverflowAxis.visible⟩⟩
        ⟨⟨0, 0⟩, ⟨0, 0⟩, 1⟩ ⟨0, 0⟩).1 (by norm_num) (by norm_num),
    by norm_num,
    (line_unit_scaling ⟨15, 1⟩ ⟨⟨OverflowAxis.visible, OverflowAxis.visible⟩⟩
        ⟨⟨0, 0⟩, ⟨0, 0⟩, 1⟩ ⟨0, 0⟩).2.1 (by norm_num)⟩

/-- C9: for a just-created container with scrollbars enabled, the
lifecycle manager spawns exactly the scrollbars-with-thumbs of the
scroll-enabled axes, each attached to the container's parent (wrapper)
entity and not to the container itself; a container that is not
just-created spawns nothing; the just-added flag is consumed so the
manager never fires twice for the same container; and the thumb-present
markers are never removed (one-way no-thumb → thumb-present). -/
theorem spawn_scrollbars_contract (s : ContainerState) :
    (s.just_added = true → s.show_scrollbars = true →
      (spawn_frame s).2 = spawn_scrollbars_for s.id s.parent s.overflow s.show_scrollbars ∧
      (∀ b ∈ (spawn_frame s).2, b.attached_to = s.parent ∧ b.target = s.id ∧
        b.has_thumb = true ∧ (s.parent ≠ s.id → b.attached_to ≠ s.id)) ∧
      List.countP (fun b => decide (b.orient = ControlOrientation.vertical)) (spawn_frame s).2
        = (if s.overflow.y = OverflowAxis.scroll then 1 else 0) ∧
      List.countP (fun b => decide (b.orient = ControlOrientation.horizontal)) (spawn_frame s).2
        = (if s.overflow.x = OverflowAxis.scroll then 1 else 0) ∧
      (s.overflow.y = OverflowAxis.scroll → (spawn_frame s).1.has_vthumb = true) ∧
      (s.overflow.x = OverflowAxis.scroll → (spawn_frame s).1.has_hthumb = true)) ∧
    (s.just_added = false → (spawn_frame s).2 = []) ∧
    ((spawn_frame s).1.just_added = false) ∧
    ((spawn_frame (spawn_frame s).1).2 = []) ∧
    (s.has_vthumb = true → (spawn_frame s).1.has_vthumb = true) ∧
    (s.has_hthumb = true → (spawn_frame s).1.has_hthumb = true) := by
  obtain ⟨i, pa, ⟨ox, oy⟩, sb, ja, hv, hh⟩ := s
  by_cases hx : ox = OverflowAxis.scroll <;> by_cases hy : oy = OverflowAxis.scroll <;>
    cases ja <;> cases sb <;> cases hv <;> cases hh <;>
      simp [spawn_frame, spawn_scrollbars_for, hx, hy,
        List.countP_cons, List.countP_nil]

/-- Witness for C9: container entity 1 with parent 0, both axes
scrollable, scrollbars shown, just created, no thumbs yet: the frame
spawns the vertical and horizontal scrollbars attached to entity 0
targeting entity 1, sets both thumb markers, and a second frame spawns
nothing. -/
theorem spawn_scrollbars_contract_witness :
    (spawn_frame ⟨1, 0, ⟨OverflowAxis.scroll, OverflowAxis.scroll⟩, true, true, false, false⟩).2
      = spawn_scrollbars_for 1 0 ⟨OverflowAxis.scroll, OverflowAxis.scroll⟩ true ∧
    List.countP (fun b => decide (b.orient = ControlOrientation.vertical))
      (spawn_frame ⟨1, 0, ⟨OverflowAxis.scroll, OverflowAxis.scroll⟩, true, true, false, false⟩).2
      = (if (⟨OverflowAxis.scroll, OverflowAxis.scroll⟩ : Overflow).y = OverflowAxis.scroll
          then 1 else 0) ∧
    (spawn_frame ⟨1, 0, ⟨OverflowAxis.scroll, OverflowAxis.scroll⟩, true, true, false, false⟩).1.has_vthumb
      = true ∧
    (spawn_frame (spawn_frame
        ⟨1, 0, ⟨OverflowAxis.scroll, OverflowAxis.scroll⟩, true, true, false, false⟩).1).2
      = [] :=
  ⟨((spawn_scrollbars_contract
      ⟨1, 0, ⟨OverflowAxis.scroll, OverflowAxis.scroll⟩, true, true, false, false⟩).1 rfl rfl).1,
    ((spawn_scrollbars_contract
      ⟨1, 0, ⟨OverflowAxis.scroll, OverflowAxis.scroll⟩, true, true, false, false⟩).1 rfl rfl).2.2.1,
    ((spawn_scrollbars_contract
      ⟨1, 0, ⟨OverflowAxis.scroll, OverflowAxis.scroll⟩, true, true, false, false⟩).1 rfl rfl).2.2.2.2.1 rfl,
    (spawn_scrollbars_contract
      ⟨1, 0, ⟨OverflowAxis.scroll, OverflowAxis.scroll⟩, true, true, false, false⟩).2.2.2.1⟩

/-- C10: the working delta of the scroll observer is the negation
(-event.x, -event.y) of the raw event delta, taken before line-unit
scaling, redirection and clamping; consequently an event with a positive
component never moves the offset of that axis upward (toward
`max_offset`) — it moves it toward 0 or leaves it unchanged. -/
theorem delta_negation (e : Vec2) (n : Node) (c : ComputedNode) (p : ScrollPosition) :
    raw_delta e = ⟨-e.x, -e.y⟩ ∧
    (0 < e.x → (scroll_observer e n c p).x ≤ p.x) ∧
    (0 < e.y → (scroll_observer e n c p).y ≤ p.y) := by
  refine ⟨rfl, ?_, ?_⟩
  · intro h
    exact step_axis_le_self_of_nonpos _ _ _ _ (eff_delta_x_nonpos n e h)
  · intro h
    exact step_axis_le_self_of_nonpos _ _ _ _ (eff_delta_y_nonpos n e h)

/-- Witness for C10: event (2, 3) on a bidirectional 1000×1000-content,
200×200-viewport container at offset (100, 100): both components positive,
and neither offset increases. -/
theorem delta_negation_witness :
    (0:ℚ) < 2 ∧ (0:ℚ) < 3 ∧
    raw_delta ⟨2, 3⟩ = ⟨-2, -3⟩ ∧
    (scroll_observer ⟨2, 3⟩ ⟨⟨OverflowAxis.scroll, OverflowAxis.scroll⟩⟩
        ⟨⟨1000, 1000⟩, ⟨200, 200⟩, 1⟩ ⟨100, 100⟩).x ≤ 100 ∧
    (scroll_observer ⟨2, 3⟩ ⟨⟨OverflowAxis.scroll, OverflowAxis.scroll⟩⟩
        ⟨⟨1000, 1000⟩, ⟨200, 200⟩, 1⟩ ⟨100, 100⟩).y ≤ 100 :=
  ⟨by norm_num, by norm_num,
    (delta_negation ⟨2, 3⟩ ⟨⟨OverflowAxis.scroll, OverflowAxis.scroll⟩⟩
      ⟨⟨1000, 1000⟩, ⟨200, 200⟩, 1⟩ ⟨100, 100⟩).1,
    (delta_negation ⟨2, 3⟩ ⟨⟨OverflowAxis.scroll, OverflowAxis.scroll⟩⟩
      ⟨⟨1000, 1000⟩, ⟨200, 200⟩, 1⟩ ⟨100, 100⟩).2.1 (by norm_num),
    (delta_negation ⟨2, 3⟩ ⟨⟨OverflowAxis.scroll, OverflowAxis.scroll⟩⟩
      ⟨⟨1000, 1000⟩, ⟨200, 200⟩, 1⟩ ⟨100, 100⟩).2.2 (by norm_num)⟩

end FeathersScroll
